import Mathlib

/-!
Shallow embedding of the web application in src/main.ts (Deno/Oak).

The program keeps an OAuth credential bundle in a browser cookie, verifies
identity against the provider profile endpoint, and maintains a JSON status
record on disk. We embed the request handlers as pure functions over an
explicit world state (cookie jar, status file, oracle call counters, call
trace) and an environment of provider/clock oracles. Provider calls that can
raise in the source are modelled with Except; thrown errors that are not
caught in the source propagate as Except.error out of the handler, matching
an unhandled rejection reaching the framework. The cookie map follows the
semantics of the cookies layer: ctx.cookies.get reads only the request
Cookie header (the cookie field, fixed for the whole request), while
ctx.cookies.set and ctx.cookies.delete only append a Set-Cookie response
header (the setCookie field), so a value written during a request is never
seen by a later get in the same request.
-/

/-- Credential bundle stored in the cookie (type Tokens, main.ts lines 16-21). -/
structure Tokens where
  accessToken : String
  tokenType : String
  expiresIn : Int
  refreshToken : String
deriving DecidableEq

/-- Identity payload (type Me, main.ts lines 81-83). -/
structure Me where
  first_name : String
deriving DecidableEq

/-- Raw contents of the tokens cookie: either a serialized Tokens value
(written by setTokens, so JSON.parse recovers it) or a string that is not
valid JSON (JSON.parse throws on it). -/
inductive CookieVal where
  | good (t : Tokens)
  | bad (s : String)
deriving DecidableEq

/-- Exceptions that can escape a handler: a JSON.parse failure on the cookie
(main.ts line 34), a rejected fetch to the profile endpoint (line 118), a
throw from the authorization-code exchange (line 152), and the throw for a
missing code verifier (line 149). -/
inductive JsError where
  | jsonError (s : String)
  | fetchFailed
  | oauthError
  | invalidCodeVerifier
deriving DecidableEq

/-- Response bodies produced by the handlers. -/
inductive Body where
  | msg (s : String)
  | me (m : Me)
  | record (r : List (String × String))
deriving DecidableEq

/-- Outcome of one fetch to the provider profile endpoint: either the promise
rejects (network error) or an HTTP response with a status code arrives; the
payload is read only when the status is 200 (main.ts lines 117-128). -/
inductive FetchOutcome where
  | netError
  | http (status : Nat) (payload : Me)
deriving DecidableEq

/-- Trace entry for one outbound provider call. -/
inductive PCall where
  | profileFetch (bearer : String)
  | refreshExchange (refreshToken : String)
  | codeExchange
deriving DecidableEq

/-- Request method as distinguished by the status-key route (main.ts line 172). -/
inductive Method where
  | GET
  | POST
  | OTHER
deriving DecidableEq

/-- Oracles for the outside world: successive outcomes of profile fetches, of
refresh-token exchanges, of authorization-code exchanges, and of readings of
the wall clock (new Date().toISOString()), indexed by call count. -/
structure Env where
  fetchO : Nat → FetchOutcome
  refreshO : Nat → Except Unit Tokens
  codeO : Nat → Except Unit Tokens
  clockO : Nat → String

/-- Mutable state threaded through a request: the tokens cookie as sent by
the browser in the request Cookie header (never changed during a request —
ctx.cookies.get reads only this), the pending Set-Cookie response header
(none while nothing was written; some v after a set with value v; some none
after a delete), the contents of /data/status.json (none when the file does
not exist), the oracle call counters, and the trace of provider calls made
so far. -/
structure World where
  cookie : Option CookieVal
  setCookie : Option (Option CookieVal)
  file : Option (List (String × String))
  fetchCnt : Nat
  refreshCnt : Nat
  codeCnt : Nat
  clockCnt : Nat
  trace : List PCall
deriving DecidableEq

/-- The parts of ctx.response the handlers touch: status, body, redirect
location. All start unset. -/
structure Response where
  status : Option Nat
  body : Option Body
  redirect : Option String
deriving DecidableEq

def emptyResp : Response := ⟨none, none, none⟩

/-- ctx.response.redirect(u): sets status 302 and the location header. -/
def redirectTo (r : Response) (u : String) : Response :=
  { r with status := some 302, redirect := some u }

/-- cookies.getTokens (main.ts lines 31-35): returns undefined when the cookie
is absent, otherwise JSON.parse of its contents — which throws when the
contents are not valid JSON; there is no catch around the parse. -/
def getTokens (c : Option CookieVal) : Except JsError (Option Tokens) :=
  match c with
  | none => .ok none
  | some (.good t) => .ok (some t)
  | some (.bad s) => .error (.jsonError s)

/-- cookies.setTokens (main.ts lines 23-30): ctx.cookies.set appends a
Set-Cookie response header carrying the serialized bundle; the request
Cookie header is untouched, so a get later in the same request does not see
this value. -/
def setTokens (w : World) (t : Tokens) : World :=
  { w with setCookie := some (some (.good t)) }

/-- ctx.cookies.delete("tokens"): appends an expiring Set-Cookie; the request
Cookie header is untouched. -/
def deleteTokens (w : World) : World :=
  { w with setCookie := some none }

/-- The credential cookie as the browser will hold it after the response:
the value of the pending Set-Cookie when one was written, else the request
cookie unchanged. -/
def effCookie (w : World) : Option CookieVal :=
  match w.setCookie with
  | some v => v
  | none => w.cookie

/-- fetchRcApi (main.ts lines 117-128): one fetch to the profile endpoint with
the bearer token. A rejected fetch propagates (no try/catch); an HTTP 200
yields the identity; any other status yields false (here: .ok none). -/
def fetchRcApi (env : Env) (w : World) (accessToken : String) :
    Except JsError (Option Me) × World :=
  let w1 := { w with
    fetchCnt := w.fetchCnt + 1
    trace := w.trace ++ [.profileFetch accessToken] }
  match env.fetchO w.fetchCnt with
  | .netError => (.error .fetchFailed, w1)
  | .http s m =>
    if s = 200 then (.ok (some { first_name := m.first_name }), w1)
    else (.ok none, w1)

/-- cookies.refreshTokens (main.ts lines 36-45): exchanges the refresh token;
the try/catch converts any provider failure into the result false, leaving
the cookie untouched; on success setTokens overwrites the cookie. -/
def refreshTokens (env : Env) (w : World) (refreshToken : String) :
    Bool × World :=
  let w1 := { w with
    refreshCnt := w.refreshCnt + 1
    trace := w.trace ++ [.refreshExchange refreshToken] }
  match env.refreshO w.refreshCnt with
  | .error _ => (false, w1)
  | .ok newTokens => (true, setTokens w1 newTokens)

/-- What getName leaves behind: its return value (none encodes the literal
false of the source), the response fields it set, and the world after it. -/
structure GetNameRes where
  result : Option Me
  resp : Response
  world : World
deriving DecidableEq

/-- getName (main.ts lines 86-115). Faithful to the source, including two
subtleties. First, the re-read at line 98 goes through ctx.cookies.get,
which reads only the request Cookie header; a refresh only appends a
Set-Cookie response header, so the re-read always returns the original
tokens and the retried verification at line 106 always carries the original
access token, whether or not the refresh succeeded. Second, on the path
where the first verification fails and the retried verification succeeds,
the inner `const name` of line 106 shadows the outer one, so line 114
returns the outer value, which is false — hence result none with no
response field set. -/
def getName (env : Env) (w : World) : Except JsError GetNameRes :=
  match getTokens w.cookie with
  | .error e => .error e
  | .ok none => .ok ⟨none, ⟨some 401, some (.msg "not logged in"), none⟩, w⟩
  | .ok (some tokens) =>
    match fetchRcApi env w tokens.accessToken with
    | (.error e, _) => .error e
    | (.ok (some m), w1) => .ok ⟨some m, emptyResp, w1⟩
    | (.ok none, w1) =>
      let w2 := (refreshTokens env w1 tokens.refreshToken).2
      match getTokens w2.cookie with
      | .error e => .error e
      | .ok none =>
        .ok ⟨none, ⟨some 401, some (.msg "invalid session"), none⟩, deleteTokens w2⟩
      | .ok (some newTokens) =>
        match fetchRcApi env w2 newTokens.accessToken with
        | (.error e, _) => .error e
        | (.ok none, w3) =>
          .ok ⟨none, ⟨some 401, some (.msg "invalid session"), none⟩, deleteTokens w3⟩
        | (.ok (some _), w3) => .ok ⟨none, emptyResp, w3⟩

/-- GET /api/me (main.ts lines 161-165): on false, return with the response
exactly as getName left it; otherwise set the identity as the body. -/
def apiMe (env : Env) (w : World) : Except JsError (Response × World) :=
  match getName env w with
  | .error e => .error e
  | .ok g =>
    match g.result with
    | none => .ok (g.resp, g.world)
    | some m => .ok ({ g.resp with body := some (.me m) }, g.world)

/-- Object.keys of the record. -/
def objKeys (r : List (String × String)) : List String :=
  r.map Prod.fst

/-- The object spread of main.ts lines 195-198 when the key is already
present: every entry with that key is replaced by the new value, all other
entries are unchanged. -/
def setKey (r : List (String × String)) (k v : String) :
    List (String × String) :=
  r.map fun p => if p.1 = k then (k, v) else p

/-- The constant written by the update endpoint (main.ts line 197):
new Date("2026-01-29T15:32:41.000Z").toISOString() is that very string. -/
def hardcodedWriteTime : String := "2026-01-29T15:32:41.000Z"

/-- status.read (main.ts lines 57-74): when the file exists, parse and return
it; when it does not exist, build a fresh record with two separate readings
of the clock (lines 64 and 65 each call new Date()), write it, return it. -/
def statusRead (env : Env) (w : World) :
    List (String × String) × World :=
  match w.file with
  | some r => (r, w)
  | none =>
    let r := [("last_emptied", env.clockO w.clockCnt),
              ("last_cleaned", env.clockO (w.clockCnt + 1))]
    (r, { w with file := some r, clockCnt := w.clockCnt + 2 })

/-- status.write (main.ts lines 75-78): rewrites the whole file. -/
def statusWrite (w : World) (r : List (String × String)) : World :=
  { w with file := some r }

/-- GET /api/status (main.ts lines 167-169): no authentication, body is the
record from status.read. -/
def apiStatus (env : Env) (w : World) : Response × World :=
  let p := statusRead env w
  ({ status := none, body := some (.record p.1), redirect := none }, p.2)

/-- GET|POST /api/status/:key (main.ts lines 171-206): 405 on other methods;
on auth failure GET redirects to /api/login and POST returns with the
response as getName left it; an unknown key (checked against the keys of the
record just read) gets 400 invalid key; otherwise the whole record is
rewritten with the named key replaced by the hardcoded time, then GET
redirects to / and POST re-reads and returns the record. -/
def apiStatusKey (env : Env) (mth : Method) (key : String) (w : World) :
    Except JsError (Response × World) :=
  match mth with
  | .OTHER => .ok (⟨some 405, none, none⟩, w)
  | _ =>
    match getName env w with
    | .error e => .error e
    | .ok g =>
      match g.result with
      | none =>
        match mth with
        | .GET => .ok (redirectTo g.resp "/api/login", g.world)
        | _ => .ok (g.resp, g.world)
      | some _ =>
        let p := statusRead env g.world
        if key ∈ objKeys p.1 then
          let w2 := statusWrite p.2 (setKey p.1 key hardcodedWriteTime)
          match mth with
          | .GET => .ok (redirectTo g.resp "/", w2)
          | _ =>
            let q := statusRead env w2
            .ok ({ g.resp with body := some (.record q.1) }, q.2)
        else
          .ok ({ g.resp with status := some 400, body := some (.msg "invalid key") }, p.2)

/-- GET /api/callback (main.ts lines 146-157): throws on a missing or
non-string code verifier; exchanges the authorization code with no try/catch,
so a provider failure there propagates; on success stores the tokens and
redirects to the root. -/
def apiCallback (env : Env) (codeVerifier : Option String) (w : World) :
    Except JsError (Response × World) :=
  match codeVerifier with
  | none => .error .invalidCodeVerifier
  | some _ =>
    let w1 := { w with codeCnt := w.codeCnt + 1, trace := w.trace ++ [.codeExchange] }
    match env.codeO w.codeCnt with
    | .error _ => .error .oauthError
    | .ok tokens => .ok (redirectTo emptyResp "/", setTokens w1 tokens)

/-! Projections on handler outcomes, so theorems can speak about a run
without naming intermediate pairs. All return none when the run raised. -/

def statusOf : Except JsError (Response × World) → Option (Option Nat)
  | .ok p => some p.1.status
  | .error _ => none

def bodyOf : Except JsError (Response × World) → Option (Option Body)
  | .ok p => some p.1.body
  | .error _ => none

def redirOf : Except JsError (Response × World) → Option (Option String)
  | .ok p => some p.1.redirect
  | .error _ => none

def fileOf : Except JsError (Response × World) → Option (Option (List (String × String)))
  | .ok p => some p.2.file
  | .error _ => none

def gnStatus : Except JsError GetNameRes → Option (Option Nat)
  | .ok g => some g.resp.status
  | .error _ => none

def gnBody : Except JsError GetNameRes → Option (Option Body)
  | .ok g => some g.resp.body
  | .error _ => none

def gnResult : Except JsError GetNameRes → Option (Option Me)
  | .ok g => some g.result
  | .error _ => none

def gnTrace : Except JsError GetNameRes → Option (List PCall)
  | .ok g => some g.world.trace
  | .error _ => none

/-- The credential cookie the browser ends up holding after a getName run:
the pending Set-Cookie when getName wrote one, else the request cookie. -/
def gnCookie : Except JsError GetNameRes → Option (Option CookieVal)
  | .ok g => some (effCookie g.world)
  | .error _ => none

def countFetch (tr : List PCall) : Nat :=
  tr.countP fun c => match c with
  | .profileFetch _ => true
  | _ => false

def countRefresh (tr : List PCall) : Nat :=
  tr.countP fun c => match c with
  | .refreshExchange _ => true
  | _ => false

/-- Number of profile-fetch calls recorded by a getName run (0 when it raised;
the theorems using this also assert the run did not raise). -/
def gnFetchCalls (x : Except JsError GetNameRes) : Nat :=
  match x with
  | .ok g => countFetch g.world.trace
  | .error _ => 0

def gnRefreshCalls (x : Except JsError GetNameRes) : Nat :=
  match x with
  | .ok g => countRefresh g.world.trace
  | .error _ => 0

/-- A fetch outcome that the verifier maps to invalid without raising: an
HTTP response whose status is not 200. -/
def isHttpFail : FetchOutcome → Bool
  | .netError => false
  | .http s _ => if s = 200 then false else true

/-! Concrete inputs used by closed theorems and witnesses. -/

def tokA : Tokens := ⟨"a0", "bearer", 3600, "r0"⟩

def tokB : Tokens := ⟨"a1", "bearer", 3600, "r1"⟩

def baseWorld : World := ⟨none, none, none, 0, 0, 0, 0, []⟩

/-- Environment where the first profile fetch is rejected with a transient
HTTP 500, the refresh exchange succeeds with fresh tokens, and the second
profile fetch succeeds with identity Ada. -/
def envC1 : Env :=
  ⟨fun n => if n = 0 then .http 500 ⟨""⟩ else .http 200 ⟨"Ada"⟩,
   fun _ => .ok tokB, fun _ => .error (), fun _ => "T"⟩

def wC1 : World := { baseWorld with cookie := some (.good tokA) }

/-- Environment whose provider calls all fail; used where the oracles are
irrelevant or must fail. -/
def envAny : Env :=
  ⟨fun _ => .netError, fun _ => .error (), fun _ => .error (), fun _ => "T"⟩

def wC2 : World := { baseWorld with cookie := some (.bad "oops") }

def envR : Env :=
  ⟨fun _ => .http 200 ⟨"Ada"⟩, fun _ => .error (), fun _ => .error (), fun _ => "T"⟩

def wC8 : World :=
  { baseWorld with cookie := some (.good tokA), file := some [("last_emptied", "E")] }

/-! Theorems. -/

/-- Claim C1 (code bug): with a stored token whose first verification fails
transiently, a refresh that succeeds (the pending Set-Cookie holds the
refreshed tokens), and a retried verification that succeeds — the re-read
cookie is the unchanged request cookie, so the trace shows the retry carries
the original access token a0 — getName nevertheless returns false: the inner
name of main.ts line 106 shadows the outer one returned at line 114. GET
/api/me therefore finishes with no status and no body set instead of
responding 200 with the first name. -/
theorem c1_shadowed_retry_result :
    gnTrace (getName envC1 wC1) =
      some [.profileFetch "a0", .refreshExchange "r0", .profileFetch "a0"] ∧
    gnCookie (getName envC1 wC1) = some (some (.good tokB)) ∧
    gnResult (getName envC1 wC1) = some none ∧
    statusOf (apiMe envC1 wC1) = some none ∧
    bodyOf (apiMe envC1 wC1) = some none :=
  ⟨rfl, rfl, rfl, rfl, rfl⟩

/-- Claim C2 (counterexample): a cookie whose contents are not valid JSON
makes JSON.parse throw inside getTokens with no catch, so the whole /api/me
request raises instead of being treated as not logged in. -/
theorem c2_malformed_cookie_raises :
    apiMe envAny wC2 = .error (.jsonError "oops") := rfl

/-- Claim C2 (amended): retrieve returns absent when the cookie is missing,
and a missing cookie is answered 401 not logged in; but when the cookie
contents are malformed, getTokens raises the JSON parse error and the
request propagates it instead of treating it as not logged in. -/
theorem c2_retrieve_amended :
    (∀ c : Option CookieVal, c = none → getTokens c = .ok none) ∧
    (∀ s : String, getTokens (some (.bad s)) = .error (.jsonError s)) ∧
    (∀ (env : Env) (w : World), w.cookie = none →
      gnStatus (getName env w) = some (some 401) ∧
      gnBody (getName env w) = some (some (.msg "not logged in"))) ∧
    (∀ (env : Env) (w : World) (s : String), w.cookie = some (.bad s) →
      apiMe env w = .error (.jsonError s)) := by
  refine ⟨?_, ?_, ?_, ?_⟩
  · intro c hc; subst hc; rfl
  · intro s; rfl
  · intro env w h
    simp [getName, getTokens, h, gnStatus, gnBody]
  · intro env w s h
    simp [apiMe, getName, getTokens, h]

theorem c2_retrieve_amended_witness :
    wC2.cookie = some (.bad "oops") ∧
    getTokens (some (.bad "oops")) = .error (.jsonError "oops") ∧
    apiMe envAny wC2 = .error (.jsonError "oops") :=
  ⟨rfl, c2_retrieve_amended.2.1 "oops",
   c2_retrieve_amended.2.2.2 envAny wC2 "oops" rfl⟩

/-- Claim C8: when the provider-side refresh exchange fails, refreshTokens
returns false and performs no write at all: the request cookie, the pending
Set-Cookie (hence the cookie value the browser keeps) and the status file
are exactly what they were before the call. -/
theorem c8_refresh_failure_no_write :
    ∀ (env : Env) (w : World) (rt : String),
      env.refreshO w.refreshCnt = .error () →
      (refreshTokens env w rt).1 = false ∧
      (refreshTokens env w rt).2.cookie = w.cookie ∧
      (refreshTokens env w rt).2.setCookie = w.setCookie ∧
      (refreshTokens env w rt).2.file = w.file := by
  intro env w rt h
  simp [refreshTokens, h]

theorem c8_refresh_failure_no_write_witness :
    envR.refreshO wC8.refreshCnt = .error () ∧
    ((refreshTokens envR wC8 "r0").1 = false ∧
     (refreshTokens envR wC8 "r0").2.cookie = wC8.cookie ∧
     (refreshTokens envR wC8 "r0").2.setCookie = wC8.setCookie ∧
     (refreshTokens envR wC8 "r0").2.file = wC8.file) :=
  ⟨rfl, c8_refresh_failure_no_write envR wC8 "r0" rfl⟩

/-- Claim C3 (counterexample): when the provider rejects the
authorization-code exchange, the callback handler — which has no try/catch
around the exchange — lets the failure propagate to the client as a raw
exception. -/
theorem c3_callback_exchange_raises :
    apiCallback envAny (some "verifier") baseWorld = .error .oauthError := rfl

/-- Claim C3 (amended): only the token-refresh exchange is caught at the
point of use (refreshTokens converts any provider failure into the result
false), and the profile lookup converts non-200 HTTP responses into invalid;
but a network-level failure of the profile fetch and any failure of the
authorization-code exchange at the callback propagate to the client as raw
exceptions. -/
theorem c3_provider_failures_amended :
    (∀ (env : Env) (w : World) (rt : String),
      env.refreshO w.refreshCnt = .error () →
      (refreshTokens env w rt).1 = false) ∧
    (∀ (env : Env) (w : World) (a : String) (s : Nat) (m : Me),
      env.fetchO w.fetchCnt = .http s m → s ≠ 200 →
      (fetchRcApi env w a).1 = .ok none) ∧
    (∀ (env : Env) (w : World) (a : String),
      env.fetchO w.fetchCnt = .netError →
      (fetchRcApi env w a).1 = .error .fetchFailed) ∧
    (∀ (env : Env) (w : World) (cv : String),
      env.codeO w.codeCnt = .error () →
      apiCallback env (some cv) w = .error .oauthError) := by
  refine ⟨?_, ?_, ?_, ?_⟩
  · intro env w rt h
    simp [refreshTokens, h]
  · intro env w a s m h hs
    simp [fetchRcApi, h, hs]
  · intro env w a h
    simp [fetchRcApi, h]
  · intro env w cv h
    simp [apiCallback, h]

theorem c3_provider_failures_amended_witness :
    envAny.refreshO baseWorld.refreshCnt = .error () ∧
    (refreshTokens envAny baseWorld "r0").1 = false ∧
    envR.fetchO baseWorld.fetchCnt = .http 200 ⟨"Ada"⟩ ∧
    envC1.fetchO wC1.fetchCnt = .http 500 ⟨""⟩ ∧
    (fetchRcApi envC1 wC1 "a0").1 = .ok none ∧
    envAny.fetchO baseWorld.fetchCnt = .netError ∧
    (fetchRcApi envAny baseWorld "a0").1 = .error .fetchFailed ∧
    envAny.codeO baseWorld.codeCnt = .error () ∧
    apiCallback envAny (some "v") baseWorld = .error .oauthError :=
  ⟨rfl, c3_provider_failures_amended.1 envAny baseWorld "r0" rfl,
   rfl, rfl,
   c3_provider_failures_amended.2.1 envC1 wC1 "a0" 500 ⟨""⟩ rfl (by decide),
   rfl, c3_provider_failures_amended.2.2.1 envAny baseWorld "a0" rfl,
   rfl, c3_provider_failures_amended.2.2.2 envAny baseWorld "v" rfl⟩

def wC4 : World :=
  { baseWorld with file := some [("last_emptied", "X"), ("last_cleaned", "Y")] }

/-- Claim C4 (counterexample): an unauthenticated POST /api/status/last_cleaned
does leave the persisted record unchanged, but its response is not bodyless:
getName already set status 401 and body message not logged in before the
handler returned, and the handler returns with that response as is. -/
theorem c4_unauth_post_has_body :
    bodyOf (apiStatusKey envAny .POST "last_cleaned" wC4) =
      some (some (.msg "not logged in")) ∧
    bodyOf (apiStatusKey envAny .POST "last_cleaned" wC4) ≠ some none ∧
    fileOf (apiStatusKey envAny .POST "last_cleaned" wC4) =
      some (some [("last_emptied", "X"), ("last_cleaned", "Y")]) :=
  ⟨rfl, by decide, rfl⟩

/-- Claim C4 (amended): an unauthenticated POST /api/status/:key performs no
write — the persisted record is unchanged — and returns the 401 response
that resolveIdentity set (body message not logged in when no cookie is
present, no redirect); the handler itself adds no body and no status. -/
theorem c4_unauth_post_amended :
    ∀ (env : Env) (w : World) (k : String) (r : List (String × String)),
      w.cookie = none → w.file = some r →
      statusOf (apiStatusKey env .POST k w) = some (some 401) ∧
      bodyOf (apiStatusKey env .POST k w) = some (some (.msg "not logged in")) ∧
      redirOf (apiStatusKey env .POST k w) = some none ∧
      fileOf (apiStatusKey env .POST k w) = some (some r) := by
  intro env w k r hc hf
  simp [apiStatusKey, getName, getTokens, hc, hf, statusOf, bodyOf, redirOf, fileOf]

theorem c4_unauth_post_amended_witness :
    wC4.cookie = none ∧
    wC4.file = some [("last_emptied", "X"), ("last_cleaned", "Y")] ∧
    (statusOf (apiStatusKey envAny .POST "last_cleaned" wC4) = some (some 401) ∧
     bodyOf (apiStatusKey envAny .POST "last_cleaned" wC4) =
       some (some (.msg "not logged in")) ∧
     redirOf (apiStatusKey envAny .POST "last_cleaned" wC4) = some none ∧
     fileOf (apiStatusKey envAny .POST "last_cleaned" wC4) =
       some (some [("last_emptied", "X"), ("last_cleaned", "Y")])) :=
  ⟨rfl, rfl,
   c4_unauth_post_amended envAny wC4 "last_cleaned"
     [("last_emptied", "X"), ("last_cleaned", "Y")] rfl rfl⟩

/-- Clock giving distinct readings for the two new Date() calls of
status.read initialization. -/
def envC5 : Env :=
  ⟨fun _ => .http 200 ⟨"Ada"⟩, fun _ => .error (), fun _ => .error (),
   fun n => if n = 0 then "A" else "B"⟩

/-- Clock giving the readings T0 then T1; profile fetch succeeds so a POST is
authenticated. -/
def envC5W : Env :=
  ⟨fun _ => .http 200 ⟨"Ada"⟩, fun _ => .error (), fun _ => .error (),
   fun n => if n = 0 then "T0" else "T1"⟩

def wC5W : World := { baseWorld with cookie := some (.good tokA) }

/-- Claim C5 (counterexample): status.read initializes the two keys with two
separate clock readings (main.ts lines 64 and 65 each call new Date()), so
on a fresh deployment GET /api/status can return two different timestamps —
there need not be a single T0 carried by both keys. -/
theorem c5_two_clock_reads :
    (apiStatus envC5 baseWorld).1.body =
      some (.record [("last_emptied", "A"), ("last_cleaned", "B")]) ∧
    "A" ≠ "B" :=
  ⟨rfl, by decide⟩

/-- Claim C5 (amended): on a fresh deployment GET /api/status returns
last_emptied set to the first clock reading and last_cleaned to the second
(equal exactly when the two readings coincide) and creates the backing file
with that record; a subsequent authenticated POST /api/status/last_emptied
writes the hardcoded timestamp constant (the endpoint takes no caller
timestamp) and returns last_emptied mapped to that constant with
last_cleaned still the second initial reading. -/
theorem c5_fresh_deploy_amended :
    ∀ (env : Env) (w : World) (t : Tokens) (m : Me),
      w.file = none → w.cookie = some (.good t) →
      env.fetchO w.fetchCnt = .http 200 m →
      (apiStatus env w).1.body =
        some (.record [("last_emptied", env.clockO w.clockCnt),
                       ("last_cleaned", env.clockO (w.clockCnt + 1))]) ∧
      (apiStatus env w).2.file =
        some [("last_emptied", env.clockO w.clockCnt),
              ("last_cleaned", env.clockO (w.clockCnt + 1))] ∧
      bodyOf (apiStatusKey env .POST "last_emptied" (apiStatus env w).2) =
        some (some (.record [("last_emptied", hardcodedWriteTime),
                             ("last_cleaned", env.clockO (w.clockCnt + 1))])) ∧
      fileOf (apiStatusKey env .POST "last_emptied" (apiStatus env w).2) =
        some (some [("last_emptied", hardcodedWriteTime),
                    ("last_cleaned", env.clockO (w.clockCnt + 1))]) := by
  intro env w t m hfile hc hf
  refine ⟨?_, ?_, ?_, ?_⟩ <;>
    simp [apiStatus, apiStatusKey, statusRead, statusWrite, getName, getTokens,
      fetchRcApi, objKeys, setKey, hfile, hc, hf, bodyOf, fileOf]

theorem c5_fresh_deploy_amended_witness :
    wC5W.file = none ∧
    wC5W.cookie = some (.good tokA) ∧
    envC5W.fetchO wC5W.fetchCnt = .http 200 ⟨"Ada"⟩ ∧
    ((apiStatus envC5W wC5W).1.body =
      some (.record [("last_emptied", "T0"), ("last_cleaned", "T1")]) ∧
     (apiStatus envC5W wC5W).2.file =
      some [("last_emptied", "T0"), ("last_cleaned", "T1")] ∧
     bodyOf (apiStatusKey envC5W .POST "last_emptied" (apiStatus envC5W wC5W).2) =
      some (some (.record [("last_emptied", hardcodedWriteTime),
                           ("last_cleaned", "T1")])) ∧
     fileOf (apiStatusKey envC5W .POST "last_emptied" (apiStatus envC5W wC5W).2) =
      some (some [("last_emptied", hardcodedWriteTime),
                  ("last_cleaned", "T1")])) :=
  ⟨rfl, rfl, rfl,
   c5_fresh_deploy_amended envC5W wC5W tokA ⟨"Ada"⟩ rfl rfl rfl⟩

def envC6 : Env :=
  ⟨fun _ => .http 401 ⟨""⟩, fun _ => .ok tokB, fun _ => .error (), fun _ => "T"⟩

def wC6 : World := { baseWorld with cookie := some (.good tokA) }

/-- Claim C6: when every profile fetch comes back with a non-200 status (the
verifier always reports invalid), getName answers 401 invalid session after
at most one refresh attempt and at most two verifier calls. -/
theorem c6_single_retry_bound :
    ∀ (env : Env) (w : World) (t : Tokens),
      w.cookie = some (.good t) → w.trace = [] →
      (∀ n, isHttpFail (env.fetchO n) = true) →
      gnStatus (getName env w) = some (some 401) ∧
      gnBody (getName env w) = some (some (.msg "invalid session")) ∧
      gnFetchCalls (getName env w) ≤ 2 ∧
      gnRefreshCalls (getName env w) ≤ 1 := by
  intro env w t hc htr hall
  have h1 := hall w.fetchCnt
  have h2 := hall (w.fetchCnt + 1)
  cases hf1 : env.fetchO w.fetchCnt with
  | netError => rw [hf1] at h1; simp [isHttpFail] at h1
  | http s1 m1 =>
    rw [hf1] at h1
    have hs1 : ¬ s1 = 200 := by intro h; subst h; simp [isHttpFail] at h1
    cases hf2 : env.fetchO (w.fetchCnt + 1) with
    | netError => rw [hf2] at h2; simp [isHttpFail] at h2
    | http s2 m2 =>
      rw [hf2] at h2
      have hs2 : ¬ s2 = 200 := by intro h; subst h; simp [isHttpFail] at h2
      cases hr : env.refreshO w.refreshCnt with
      | error e =>
        simp [getName, getTokens, fetchRcApi, refreshTokens, deleteTokens,
          setTokens, gnStatus, gnBody, gnFetchCalls, gnRefreshCalls,
          countFetch, countRefresh, hc, htr, hf1, hf2, hr, hs1, hs2]
      | ok nt =>
        simp [getName, getTokens, fetchRcApi, refreshTokens, deleteTokens,
          setTokens, gnStatus, gnBody, gnFetchCalls, gnRefreshCalls,
          countFetch, countRefresh, hc, htr, hf1, hf2, hr, hs1, hs2]

theorem c6_single_retry_bound_witness :
    wC6.cookie = some (.good tokA) ∧
    wC6.trace = [] ∧
    isHttpFail (envC6.fetchO 0) = true ∧
    (gnStatus (getName envC6 wC6) = some (some 401) ∧
     gnBody (getName envC6 wC6) = some (some (.msg "invalid session")) ∧
     gnFetchCalls (getName envC6 wC6) ≤ 2 ∧
     gnRefreshCalls (getName envC6 wC6) ≤ 1) :=
  ⟨rfl, rfl, rfl,
   c6_single_retry_bound envC6 wC6 tokA rfl rfl (fun _ => rfl)⟩

def wC7 : World :=
  { baseWorld with cookie := some (.good tokA),
                   file := some [("last_emptied", "E"), ("last_cleaned", "C")] }

/-- Claim C7: for every persisted record and every key outside its key set,
an authenticated request to /api/status/:key (GET or POST) gets 400 with
message invalid key and the persisted record is unchanged; the membership
check is made against the keys of the record just read from storage. -/
theorem c7_invalid_key_rejected :
    ∀ (env : Env) (w : World) (t : Tokens) (m : Me)
      (r : List (String × String)) (k : String) (mth : Method),
      w.cookie = some (.good t) →
      env.fetchO w.fetchCnt = .http 200 m →
      w.file = some r →
      k ∉ objKeys r →
      mth ≠ .OTHER →
      statusOf (apiStatusKey env mth k w) = some (some 400) ∧
      bodyOf (apiStatusKey env mth k w) = some (some (.msg "invalid key")) ∧
      fileOf (apiStatusKey env mth k w) = some (some r) := by
  intro env w t m r k mth hc hf hfile hk hm
  cases mth with
  | OTHER => exact absurd rfl hm
  | GET =>
    simp [apiStatusKey, getName, getTokens, fetchRcApi, statusRead, emptyResp,
      hc, hf, hfile, hk, statusOf, bodyOf, fileOf]
  | POST =>
    simp [apiStatusKey, getName, getTokens, fetchRcApi, statusRead, emptyResp,
      hc, hf, hfile, hk, statusOf, bodyOf, fileOf]

theorem c7_invalid_key_rejected_witness :
    wC7.cookie = some (.good tokA) ∧
    envR.fetchO wC7.fetchCnt = .http 200 ⟨"Ada"⟩ ∧
    wC7.file = some [("last_emptied", "E"), ("last_cleaned", "C")] ∧
    "bogus" ∉ objKeys [("last_emptied", "E"), ("last_cleaned", "C")] ∧
    Method.POST ≠ Method.OTHER ∧
    (statusOf (apiStatusKey envR .POST "bogus" wC7) = some (some 400) ∧
     bodyOf (apiStatusKey envR .POST "bogus" wC7) = some (some (.msg "invalid key")) ∧
     fileOf (apiStatusKey envR .POST "bogus" wC7) =
       some (some [("last_emptied", "E"), ("last_cleaned", "C")])) :=
  ⟨rfl, rfl, rfl, by decide, by decide,
   c7_invalid_key_rejected envR wC7 tokA ⟨"Ada"⟩
     [("last_emptied", "E"), ("last_cleaned", "C")] "bogus" .POST
     rfl rfl rfl (by decide) (by decide)⟩

/-- Entries whose key differs from the replaced one keep their lookup value. -/
theorem setKey_lookup_ne (r : List (String × String)) (k v k2 : String)
    (h : k2 ≠ k) : (setKey r k v).lookup k2 = r.lookup k2 := by
  induction r with
  | nil => rfl
  | cons p rest ih =>
    obtain ⟨pk, pv⟩ := p
    have hstep : setKey ((pk, pv) :: rest) k v =
        (if pk = k then (k, v) else (pk, pv)) :: setKey rest k v := rfl
    rw [hstep]
    by_cases hp : pk = k
    · rw [if_pos hp]
      have hb : (k2 == k) = false := beq_eq_false_iff_ne.mpr h
      have hb2 : (k2 == pk) = false := by rw [hp]; exact hb
      simp only [List.lookup]
      rw [hb, hb2]
      exact ih
    · rw [if_neg hp]
      by_cases hb : k2 = pk
      · subst hb
        simp only [List.lookup]
        rw [beq_self_eq_true]
      · have hbf : (k2 == pk) = false := beq_eq_false_iff_ne.mpr hb
        simp only [List.lookup]
        rw [hbf]
        exact ih

/-- Replacing a key does not change the key list of the record. -/
theorem setKey_objKeys (r : List (String × String)) (k v : String) :
    objKeys (setKey r k v) = objKeys r := by
  induction r with
  | nil => rfl
  | cons p rest ih =>
    obtain ⟨pk, pv⟩ := p
    by_cases hp : pk = k
    · subst hp
      simpa [setKey, objKeys] using ih
    · simpa [setKey, objKeys, hp] using ih

/-- Claim C9: an accepted authenticated POST update replaces exactly the
named key with the write value, leaves every other key looked up unchanged
and the key list unchanged, rewrites the whole record to storage, and
returns the post-write record (the handler re-reads the file after the
write) with no status set by the handler itself. -/
theorem c9_update_frame :
    ∀ (env : Env) (w : World) (t : Tokens) (m : Me)
      (r : List (String × String)) (k : String),
      w.cookie = some (.good t) →
      env.fetchO w.fetchCnt = .http 200 m →
      w.file = some r →
      k ∈ objKeys r →
      fileOf (apiStatusKey env .POST k w) =
        some (some (setKey r k hardcodedWriteTime)) ∧
      bodyOf (apiStatusKey env .POST k w) =
        some (some (.record (setKey r k hardcodedWriteTime))) ∧
      statusOf (apiStatusKey env .POST k w) = some none ∧
      objKeys (setKey r k hardcodedWriteTime) = objKeys r ∧
      (∀ k2, k2 ≠ k →
        (setKey r k hardcodedWriteTime).lookup k2 = r.lookup k2) := by
  intro env w t m r k hc hf hfile hk
  refine ⟨?_, ?_, ?_, setKey_objKeys r k hardcodedWriteTime,
    fun k2 h2 => setKey_lookup_ne r k hardcodedWriteTime k2 h2⟩ <;>
    simp [apiStatusKey, getName, getTokens, fetchRcApi, statusRead, statusWrite,
      emptyResp, hc, hf, hfile, hk, fileOf, bodyOf, statusOf]

theorem c9_update_frame_witness :
    wC7.cookie = some (.good tokA) ∧
    envR.fetchO wC7.fetchCnt = .http 200 ⟨"Ada"⟩ ∧
    wC7.file = some [("last_emptied", "E"), ("last_cleaned", "C")] ∧
    "last_cleaned" ∈ objKeys [("last_emptied", "E"), ("last_cleaned", "C")] ∧
    (fileOf (apiStatusKey envR .POST "last_cleaned" wC7) =
      some (some [("last_emptied", "E"), ("last_cleaned", hardcodedWriteTime)]) ∧
     bodyOf (apiStatusKey envR .POST "last_cleaned" wC7) =
      some (some (.record
        [("last_emptied", "E"), ("last_cleaned", hardcodedWriteTime)])) ∧
     (setKey [("last_emptied", "E"), ("last_cleaned", "C")] "last_cleaned"
        hardcodedWriteTime).lookup "last_emptied" =
      ([("last_emptied", "E"), ("last_cleaned", "C")] :
        List (String × String)).lookup "last_emptied") := by
  have h := c9_update_frame envR wC7 tokA ⟨"Ada"⟩
    [("last_emptied", "E"), ("last_cleaned", "C")] "last_cleaned"
    rfl rfl rfl (by decide)
  exact ⟨rfl, rfl, rfl, by decide,
    h.1, h.2.1, h.2.2.2.2 "last_emptied" (by decide)⟩

/-- Claim C10: when the first verification fails and the single refresh
attempt fails, the failure result of the refresh is ignored: the unchanged
cookie is re-read and the second verifier call is made with the original
access token (the trace shows both profile fetches carry the stored
accessToken around the refresh exchange); the 401 invalid session answer is
produced exactly when that second verifier call also fails, never directly
upon the refresh failure — and the cookie is cleared only in that case. -/
theorem c10_refresh_failure_ignored :
    ∀ (env : Env) (w : World) (t : Tokens) (s1 s2 : Nat) (m1 m2 : Me),
      w.cookie = some (.good t) → w.setCookie = none → w.trace = [] →
      env.fetchO w.fetchCnt = .http s1 m1 → s1 ≠ 200 →
      env.refreshO w.refreshCnt = .error () →
      env.fetchO (w.fetchCnt + 1) = .http s2 m2 →
      gnTrace (getName env w) =
        some [.profileFetch t.accessToken, .refreshExchange t.refreshToken,
              .profileFetch t.accessToken] ∧
      gnCookie (getName env w) =
        some (if s2 = 200 then some (.good t) else none) ∧
      gnStatus (getName env w) = some (if s2 = 200 then none else some 401) ∧
      gnBody (getName env w) =
        some (if s2 = 200 then none else some (.msg "invalid session")) := by
  intro env w t s1 s2 m1 m2 hc hsc htr hf1 hs1 hr hf2
  by_cases hs2 : s2 = 200 <;>
    simp [getName, getTokens, fetchRcApi, refreshTokens, deleteTokens, setTokens,
      effCookie, emptyResp, gnTrace, gnCookie, gnStatus, gnBody,
      hc, hsc, htr, hf1, hs1, hr, hf2, hs2]

def envC10 : Env :=
  ⟨fun _ => .http 500 ⟨""⟩, fun _ => .error (), fun _ => .error (), fun _ => "T"⟩

theorem c10_refresh_failure_ignored_witness :
    wC6.cookie = some (.good tokA) ∧
    wC6.setCookie = none ∧
    wC6.trace = [] ∧
    envC10.fetchO wC6.fetchCnt = .http 500 ⟨""⟩ ∧
    (500 : Nat) ≠ 200 ∧
    envC10.refreshO wC6.refreshCnt = .error () ∧
    envC10.fetchO (wC6.fetchCnt + 1) = .http 500 ⟨""⟩ ∧
    (gnTrace (getName envC10 wC6) =
       some [.profileFetch "a0", .refreshExchange "r0", .profileFetch "a0"] ∧
     gnCookie (getName envC10 wC6) = some none ∧
     gnStatus (getName envC10 wC6) = some (some 401) ∧
     gnBody (getName envC10 wC6) = some (some (.msg "invalid session"))) :=
  ⟨rfl, rfl, rfl, rfl, by decide, rfl, rfl,
   c10_refresh_failure_ignored envC10 wC6 tokA 500 500 ⟨""⟩ ⟨""⟩
     rfl rfl rfl rfl (by decide) rfl rfl⟩
